import Mathlib

/-!
Verification development for the `wan-pyredis` repository.

We shallowly embed the cache-aside scoped entry (`SimpleCache` /
`AsyncSimpleCache`), the distributed lock (`acquire_lock` / `release_lock`),
and the memoization decorator (`memoize`, `_make_cache_key`) from
`pyredis/proxy/proxy.py` and `pyredis/proxy/async_proxy.py`, and prove or
refute the specification's claims about them.

Python dynamic values are modelled by the inductive `PyVal`; Python's
truthiness test (`if x:`) is `PyVal.truthy`.  The JSON round trip
(`json.dumps` / `json.loads`) is the identity on this value model, since the
model ranges exactly over JSON-representable values.
-/

namespace PyRedis

mutual

/-- Model of the Python values the proxy stores and passes around:
`None`, booleans, integers, strings, lists and (string-keyed) dicts.
Booleans are a separate constructor because Python's `x.__class__ in
{str, int}` test in `_make_cache_key` is an exact-class test that rejects
`bool` instances.  The list and dict payloads are given by mutually
defined sequence types (isomorphic to `List`). -/
inductive PyVal where
  | pnone
  | pbool (b : Bool)
  | pint (n : Int)
  | pstr (s : String)
  | plist (l : PyValSeq)
  | pdict (l : PyDictSeq)
  deriving DecidableEq

inductive PyValSeq where
  | nil
  | cons (v : PyVal) (tl : PyValSeq)
  deriving DecidableEq

inductive PyDictSeq where
  | nil
  | cons (k : String) (v : PyVal) (tl : PyDictSeq)
  deriving DecidableEq

end

/-- Python truthiness (`bool(x)`): `None`, `False`, `0`, `""`, `[]` and `{}`
are falsy, everything else is truthy. -/
def PyVal.truthy : PyVal → Bool
  | .pnone => false
  | .pbool b => b
  | .pint n => n != 0
  | .pstr s => s != ""
  | .plist .nil => false
  | .plist (.cons _ _) => true
  | .pdict .nil => false
  | .pdict (.cons _ _ _) => true

/-- Exceptions that can cross a scope boundary in the embedded fragment:
a store (connectivity) error raised by the redis client, an exception
raised by the caller's own block (tagged by a number so distinct caller
errors stay distinct), and Python's `AssertionError`. -/
inductive Exc where
  | storeError
  | userExc (n : Nat)
  | assertionError
  deriving DecidableEq, Repr

/-- The slice of store state a single scalar `SimpleCache` interacts with:
the value stored under the entry's key (`none` = key absent), and whether
the store is currently failing writes (`SET` raises a store error).  The
claims only exercise read-healthy stores, so `get` is always served. -/
structure StoreC where
  val : Option PyVal
  setFails : Bool
  deriving DecidableEq

/-- `SimpleCache.get`, scalar (non-json) branch, from `proxy.py`:
`value = self._client.get(self._key); if not value: return {}` and
otherwise `json.loads(value)`.  A miss therefore yields the empty dict. -/
def simpleGetSync (st : StoreC) : PyVal :=
  match st.val with
  | none => .pdict .nil
  | some v => v

/-- `AsyncSimpleCache.get`, scalar (non-json) branch, from `async_proxy.py`:
`return json.loads(res.decode("utf-8")) if res else None`.  A miss yields
`None`, unlike the synchronous variant's `{}`. -/
def simpleGetAsync (st : StoreC) : PyVal :=
  match st.val with
  | none => .pnone
  | some v => v

/-- `SimpleCache.set`, scalar branch: `self._client.set(self._key,
json.dumps(self.data), ex=self._expire)`.  When the store is failing
writes the client raises a store error and nothing is persisted. -/
def simpleSetSync (st : StoreC) (data : PyVal) : StoreC × Option Exc :=
  if st.setFails then (st, some .storeError)
  else ({ st with val := some data }, none)

/-- State of one `SimpleCache` entry after `__enter__` (or after the load
at the top of `with_cache`): the loaded-or-pending `data`, the `update`
flag, and the `is_except` configuration flag. -/
structure CacheEntry where
  data : PyVal
  update : Bool
  isExcept : Bool
  deriving DecidableEq

/-- `SimpleCache.__enter__` (and the load step of `with_cache`):
`self.data = self.get(); if self.data: self.update = False`.
`isUpdate` is the configured initial value of `update` (`is_update`,
default `True` via `with_cache`). -/
def simpleEnterSync (st : StoreC) (isUpdate isExcept : Bool) : CacheEntry :=
  let d := simpleGetSync st
  { data := d, update := if d.truthy then false else isUpdate, isExcept := isExcept }

/-- `AsyncSimpleCache.__aenter__`: same logic over the async read. -/
def simpleEnterAsync (st : StoreC) (isUpdate isExcept : Bool) : CacheEntry :=
  let d := simpleGetAsync st
  { data := d, update := if d.truthy then false else isUpdate, isExcept := isExcept }

/-- `SimpleCache.__exit__(exc_type, exc_val, exc_tb)`:

```
if self.update and self.data:
    self.set()
if not self._except:
    return True
```

`blockExc` is the exception (if any) raised by the caller's block.  Python's
`with` statement semantics: if `__exit__` itself raises, that exception
propagates (here: a failing `set`); otherwise the block's exception is
suppressed exactly when `__exit__` returns a truthy value.  Returns the
final store and the exception that crosses the scope boundary. -/
def simpleExitSync (st : StoreC) (c : CacheEntry) (blockExc : Option Exc) :
    StoreC × Option Exc :=
  if c.update && c.data.truthy then
    match simpleSetSync st c.data with
    | (st', some e) => (st', some e)
    | (st', none) => (st', if !c.isExcept then none else blockExc)
  else
    (st, if !c.isExcept then none else blockExc)

/-- `AsyncSimpleCache.__aexit__(typ, value, traceback)`:

```
if self.update and self.data:
    await self.set()
    return True
if not self._except:
    return True
```

Note that unlike the synchronous variant it returns `True` (suppressing the
block's exception) whenever a final flush happened, regardless of
`is_except`. -/
def simpleExitAsync (st : StoreC) (c : CacheEntry) (blockExc : Option Exc) :
    StoreC × Option Exc :=
  if c.update && c.data.truthy then
    match simpleSetSync st c.data with
    | (st', some e) => (st', some e)
    | (st', none) => (st', none)
  else
    (st, if !c.isExcept then none else blockExc)

/-- A caller block, modelled by its effect on the entry's `data` and the
exception it raises (if any): the block receives the loaded value and
leaves a final value in `cache.data` before (possibly) raising. -/
def runBlock (c : CacheEntry) (body : PyVal → PyVal × Option Exc) :
    CacheEntry × Option Exc :=
  let (d', e) := body c.data
  ({ c with data := d' }, e)

/-- One full `with proxy.simple_cache(key, ...) as cache: <body>` scope
(synchronous): enter, run the body, exit.  Yields the final store and the
exception (if any) escaping the scope. -/
def runScopeSync (st : StoreC) (isUpdate isExcept : Bool)
    (body : PyVal → PyVal × Option Exc) : StoreC × Option Exc :=
  let c := simpleEnterSync st isUpdate isExcept
  let (c', e) := runBlock c body
  simpleExitSync st c' e

/-- One full `async with ...` scope over `AsyncSimpleCache`. -/
def runScopeAsync (st : StoreC) (isUpdate isExcept : Bool)
    (body : PyVal → PyVal × Option Exc) : StoreC × Option Exc :=
  let c := simpleEnterAsync st isUpdate isExcept
  let (c', e) := runBlock c body
  simpleExitAsync st c' e

/-- The `with_cache` context manager from `proxy.py`:

```
s_cache.data = s_cache.get()
if s_cache.data:
    s_cache.update = False
yield s_cache
finally:
    if s_cache.update and s_cache.data:
        s_cache.set()
```

A `@contextmanager` generator never suppresses anything: the block's
exception is re-raised after the `finally` clause runs, and an exception
raised by `set()` inside `finally` replaces it.  `is_except` is not
consulted at all on this path. -/
def runWithCacheSync (st : StoreC) (isUpdate isExcept : Bool)
    (body : PyVal → PyVal × Option Exc) : StoreC × Option Exc :=
  let c := simpleEnterSync st isUpdate isExcept
  let (c', e) := runBlock c body
  if c'.update && c'.data.truthy then
    match simpleSetSync st c'.data with
    | (st', some e') => (st', some e')
    | (st', none) => (st', e)
  else
    (st, e)

/-- Whether `with_cache` (default configuration, `is_update=True`) calls
`set()` at scope exit when the caller leaves `v1` in `cache.data`: the
literal guard `if s_cache.update and s_cache.data` evaluated after the
entry logic ran.  Caller assignments to `data` do not touch `update`. -/
def withCacheFlushes (st : StoreC) (v1 : PyVal) : Bool :=
  (simpleEnterSync st true false).update && v1.truthy

/-! ## Distributed lock: interleaved two-acquirer transition system -/

/-- Position of one process in the `acquire_lock` polling protocol:
at the top of the `while 1` loop about to `GET`; after a `GET` that
returned nothing, about to `SETNX`; holding the lock (`acquire_lock`
returned `True`); or finished after `release_lock`. -/
inductive ProcState where
  | waiting
  | trySet
  | held
  | done
  deriving DecidableEq, Repr, Fintype

/-- Global state for two concurrent acquirers of the same lock name:
whether the key `lock:<name>` is present in the store, plus each
process's protocol position. -/
structure LockSys where
  occupied : Bool
  p1 : ProcState
  p2 : ProcState
  deriving DecidableEq, Repr, Fintype

/-- Atomic events of the interleaving: a process (identified by a `Bool`,
`false` = first, `true` = second) runs one store round trip of
`acquire_lock` or `release_lock`, or the store expires the key (TTL
elapsed).  Each event is one atomic store command, matching the store's
linearizability of `GET`/`SETNX`/`DEL`. -/
inductive LockEvent where
  | eget (p : Bool)
  | esetnx (p : Bool)
  | erelease (p : Bool)
  | eexpire
  deriving DecidableEq, Repr, Fintype

/-- The protocol position of process `p`. -/
def LockSys.proc (s : LockSys) (p : Bool) : ProcState :=
  if p then s.p2 else s.p1

/-- Replace the protocol position of process `p`. -/
def LockSys.setProc (s : LockSys) (p : Bool) (q : ProcState) : LockSys :=
  if p then { s with p2 := q } else { s with p1 := q }

/-- One atomic step.  `eget`: `get_stored = self._client.get(key)` — if a
value is stored the process sleeps and stays at the loop top, otherwise it
proceeds to the `setnx` attempt.  `esetnx`: `self._client.setnx(key, 1)` —
on success the key is created, `expire` is issued and `acquire_lock`
returns `True`; on failure (a racing acquirer won) the `while` loop
re-enters at the `get`.  `erelease`: the holder runs `release_lock`,
removing the key (`DEL` in the sync variant, `EXPIRE key -1` in the async
one — both remove it).  `eexpire`: the store drops the key after its TTL.
Events that do not apply in the current position leave the state
unchanged. -/
def lockStep (s : LockSys) : LockEvent → LockSys
  | .eget p =>
    match s.proc p with
    | .waiting => if s.occupied then s else s.setProc p .trySet
    | _ => s
  | .esetnx p =>
    match s.proc p with
    | .trySet =>
      if s.occupied then s.setProc p .waiting
      else { s.setProc p .held with occupied := true }
    | _ => s
  | .erelease p =>
    match s.proc p with
    | .held => { s.setProc p .done with occupied := false }
    | _ => s
  | .eexpire => { s with occupied := false }

/-- Initial state: key absent, both acquirers entering their loops. -/
def lockInit : LockSys :=
  { occupied := false, p1 := .waiting, p2 := .waiting }

/-- Run an event sequence from the initial state. -/
def lockRun (evs : List LockEvent) : LockSys :=
  evs.foldl lockStep lockInit

/-- The mutual-exclusion invariant: a holder implies the key is present,
and the two processes never hold simultaneously. -/
def mutexInv (s : LockSys) : Prop :=
  (s.p1 = .held → s.occupied = true) ∧
  (s.p2 = .held → s.occupied = true) ∧
  ¬(s.p1 = .held ∧ s.p2 = .held)

/-! ## Store-command traces for the sync/async variants -/

/-- Observable store commands, as issued by the proxy methods.  The lock
value in `setnx` and TTL arguments are recorded so that the synchronous
and asynchronous variants can be compared command-for-command. -/
inductive Cmd where
  | get (k : String)
  | setnx (k : String) (v : Int)
  | expire (k : String) (ttl : Int)
  | del (k : String)
  deriving DecidableEq, Repr

/-- Key presence in the store: the list of currently live keys. -/
abbrev KeyStore := List String

/-- `release_lock` from `proxy.py` (synchronous):

```
key = 'lock:%s' % key
self._client.delete(key)
```

Redis `DEL` on a missing key returns 0 and raises nothing, so `release`
of an absent lock is a no-op without an exception.  Returns the new key
set, the escaping exception (never any) and the command trace. -/
def releaseLockSync (st : KeyStore) (key : String) :
    KeyStore × Option Exc × List Cmd :=
  let k := "lock:" ++ key
  (st.filter (fun x => x != k), none, [.del k])

/-- `release_lock` from `async_proxy.py`:

```
key = 'lock:%s' % key
await self.safe_delete(key)
```

where `safe_delete` is `await self.redis_db.expire(key, -1)`.  Redis
`EXPIRE` with a non-positive TTL removes the key; on a missing key it
returns 0 and raises nothing. -/
def releaseLockAsync (st : KeyStore) (key : String) :
    KeyStore × Option Exc × List Cmd :=
  let k := "lock:" ++ key
  (st.filter (fun x => x != k), none, [.expire k (-1)])

/-- `acquire_lock` from `proxy.py`, run against a store with no concurrent
writers (so a `SETNX` following a miss always succeeds), with `fuel`
bounding the number of loop iterations of the otherwise unbounded
`while 1`.  Each iteration issues `GET`; while the key is present the
process sleeps `step` seconds and retries; on a miss it issues
`SETNX key 1` followed by `EXPIRE key expire` and returns `True`. -/
def acquireLockSync (fuel : Nat) (st : KeyStore) (key : String) (expire : Int) :
    Option Bool × KeyStore × List Cmd :=
  match fuel with
  | 0 => (none, st, [])
  | n + 1 =>
    let k := "lock:" ++ key
    if st.contains k then
      let (r, st', tr) := acquireLockSync n st key expire
      (r, st', .get k :: tr)
    else
      (some true, k :: st, [.get k, .setnx k 1, .expire k expire])

/-- `acquire_lock` from `async_proxy.py`, same conventions: the loop body is

```
get_stored = await self.redis_db.get(key)
if get_stored:
    await asyncio.sleep(step)
else:
    lock = await self.redis_db.setnx(key, 1)
    if lock:
        await self.redis_db.expire(key, expire)
        return True
```
-/
def acquireLockAsync (fuel : Nat) (st : KeyStore) (key : String) (expire : Int) :
    Option Bool × KeyStore × List Cmd :=
  match fuel with
  | 0 => (none, st, [])
  | n + 1 =>
    let k := "lock:" ++ key
    if st.contains k then
      let (r, st', tr) := acquireLockAsync n st key expire
      (r, st', .get k :: tr)
    else
      (some true, k :: st, [.get k, .setnx k 1, .expire k expire])

/-! ## Memoizer -/

/-- `get_data` from `proxy.py` applied at the memoizer's cache key: the
client returns the stored serialized value or nothing; a stored value is
JSON-decoded (identity on this model), a miss yields `None`. -/
def getDataAt (store : Option PyVal) : PyVal :=
  match store with
  | none => .pnone
  | some v => v

/-- One call of a function wrapped by `RedisCacheProxy.memoize` with the
default configuration (`is_json=False`, `is_update=False`,
`exception=False`) against an error-free store.  `store` is the value
under the derived cache key, `fval` the pure wrapped function's result.

```
cache_data = get_func(cache_key)
if cache_data:
    return cache_data
cache_data = f(*args, **kwargs)
set_func(cache_key, cache_data, ex=ex)
return cache_data
```

Returns the call's result, the updated store and how many times `f` was
invoked during the call. -/
def memoCall (store : Option PyVal) (fval : PyVal) : PyVal × Option PyVal × Nat :=
  let cacheData := getDataAt store
  if cacheData.truthy then (cacheData, store, 0)
  else (fval, some fval, 1)

/-- Two successive calls of the memoized wrapper with identical arguments
(hence the same cache key), starting from an empty cache, the second
within the TTL: result of each call and the total number of invocations
of the wrapped function. -/
def memoTwoCalls (fval : PyVal) : PyVal × PyVal × Nat :=
  let (r1, st1, n1) := memoCall none fval
  let (r2, _, n2) := memoCall st1 fval
  (r1, r2, n1 + n2)

/-! ## Memoized cache key derivation (`_make_cache_key`) -/

/-- Python `str()` on the values that can reach it here.  Only `str` and
`int` instances survive `_make_cache_key`'s filter, so the remaining
branches are unreachable in context; they are given their actual Python
renderings where one exists. -/
def pyStr : PyVal → String
  | .pint n => toString n
  | .pstr s => s
  | .pbool b => if b then "True" else "False"
  | .pnone => "None"
  | .plist _ => ""
  | .pdict _ => ""

/-- `str(i).replace("-", "")`: remove every `-` character. -/
def stripDashes (s : String) : String :=
  ⟨s.data.filter (fun c => c ≠ '-')⟩

/-- The eligibility filter of `_make_cache_key`:
`lambda x: x.__class__ in {str, int} and x` — the argument's class is
exactly `str` or `int` (so `bool` instances fail the class test) and the
value is truthy. -/
def eligibleArg (v : PyVal) : Bool :=
  match v with
  | .pstr s => s != ""
  | .pint n => n != 0
  | _ => false

/-- `_make_cache_key(*args, **kwargs)` up to (but not including) the MD5
digest: filter `list(args) + list(kwargs.values())` by eligibility,
render each survivor with `str`, strip dashes, sort, comma-join, and
prepend `":"`.  The returned cache key is the MD5 hex digest of this
canonical string; since the digest is a fixed deterministic function of
it, key equality follows from canonical-string equality. -/
def canonArgString (args : List PyVal) (kwargs : List (String × PyVal)) : String :=
  let l := (args ++ kwargs.map Prod.snd).filter eligibleArg
  let strs := (l.map fun v => stripDashes (pyStr v)).mergeSort (fun a b => a ≤ b)
  ":" ++ String.intercalate "," strs

/-- The full memoized cache key
`cache_per + key + ":" + md5(canonical string).hexdigest()`,
parametrized by the digest function (MD5 in the source). -/
def makeCacheKey (digest : String → String) (cachePer key : String)
    (args : List PyVal) (kwargs : List (String × PyVal)) : String :=
  cachePer ++ key ++ ":" ++ digest (canonArgString args kwargs)

/-- The contribution of one argument to the canonical string: `none` if
the eligibility filter drops it, otherwise its dash-stripped rendering. -/
def argSig (v : PyVal) : Option String :=
  if eligibleArg v then some (stripDashes (pyStr v)) else none

/-! ## Sync-only use of the async handle (`AsyncSimpleCache.__enter__`) -/

/-- Python `assert expr`: raises `AssertionError` exactly when `expr` is
falsy. -/
def pyAssert (cond : Bool) : Option Exc :=
  if cond then none else some .assertionError

/-- Truthiness of a freshly constructed exception instance:
`ValueError(msg)` defines neither `__bool__` nor `__len__`, so
`bool(ValueError(msg))` is `True` for every message. -/
def valueErrorTruthy (_msg : String) : Bool := true

/-- `AsyncSimpleCache.__enter__` (synchronous use of the async-only
handle): its entire body is `assert ValueError("只允许异步调用！")` —
an `assert` applied to the truthy exception instance, not a `raise`. -/
def asyncHandleSyncEnter : Option Exc :=
  pyAssert (valueErrorTruthy "只允许异步调用！")

/-- `AsyncSimpleCache.__exit__`: same body as `__enter__`. -/
def asyncHandleSyncExit : Option Exc :=
  pyAssert (valueErrorTruthy "只允许异步调用！")

/-- Decidability of the mutual-exclusion invariant (it is a Boolean
combination of decidable equalities over finite types). -/
instance (s : LockSys) : Decidable (mutexInv s) := by
  unfold mutexInv; infer_instance

/-! ## Theorems -/

/-- C1 (counterexample): a scoped cache entry opened with
`suppressErrors = true` (`is_except=False`), store failing exactly at the
final flush, dirty flag true and a truthy value: the store error still
crosses the scope boundary (while the value is indeed not persisted),
contradicting the claim that the error is swallowed. -/
theorem c1_counterexample :
    (runScopeSync ⟨none, true⟩ true false (fun _ => (.pstr "v", none))).2
      = some .storeError
  ∧ (runScopeSync ⟨none, true⟩ true false (fun _ => (.pstr "v", none))).1.val
      = none := by
  decide

/-- C1 (amended): a store error raised by the implicit final flush
propagates out of the scope regardless of the `is_except` setting — for
both the synchronous `__exit__` and the asynchronous `__aexit__` — and the
value is not persisted. -/
theorem c1_amended (st : StoreC) (c : CacheEntry) (e : Option Exc)
    (hfail : st.setFails = true) (hflush : (c.update && c.data.truthy) = true) :
    simpleExitSync st c e = (st, some .storeError)
  ∧ simpleExitAsync st c e = (st, some .storeError) := by
  constructor <;> simp [simpleExitSync, simpleExitAsync, simpleSetSync, hflush, hfail]

/-- C1 (witness): the amended statement at a concrete dirty entry and
failing store. -/
theorem c1_amended_witness :
    simpleExitSync ⟨none, true⟩ ⟨.pstr "v", true, false⟩ none
      = (⟨none, true⟩, some .storeError)
  ∧ simpleExitAsync ⟨none, true⟩ ⟨.pstr "v", true, false⟩ none
      = (⟨none, true⟩, some .storeError) :=
  c1_amended ⟨none, true⟩ ⟨.pstr "v", true, false⟩ none (by decide) (by decide)

/-- C2 (counterexample): with `is_except=False` a caller-block exception
is swallowed by the synchronous `__exit__` (`return True`), and the
asynchronous `__aexit__` swallows it even with `is_except=True` whenever a
final flush occurred — contradicting the claim that block errors always
propagate. -/
theorem c2_counterexample :
    (runScopeSync ⟨none, false⟩ true false (fun d => (d, some (.userExc 7)))).2
      = none
  ∧ (runScopeAsync ⟨none, false⟩ true true (fun _ => (.pstr "v", some (.userExc 7)))).2
      = none := by
  decide

/-- C2 (amended): when the final flush does not fail, a caller-block
exception crosses the synchronous scope exactly when `is_except` is true;
the asynchronous scope additionally swallows it whenever a final flush
occurred. -/
theorem c2_amended (st : StoreC) (c : CacheEntry) (e : Option Exc)
    (hok : st.setFails = false) :
    (simpleExitSync st c e).2 = (if c.isExcept then e else none)
  ∧ (simpleExitAsync st c e).2 =
      (if c.update && c.data.truthy then none else if c.isExcept then e else none) := by
  constructor <;>
    · by_cases h : (c.update && c.data.truthy) = true <;>
        simp [simpleExitSync, simpleExitAsync, simpleSetSync, hok, h] <;>
        cases c.isExcept <;> simp

/-- C2 (witness): the amended statement at a concrete no-flush entry with
`is_except=False` and a block exception. -/
theorem c2_amended_witness :
    (simpleExitSync ⟨none, false⟩ ⟨.pnone, true, false⟩ (some (.userExc 7))).2 = none
  ∧ (simpleExitAsync ⟨none, false⟩ ⟨.pstr "v", true, false⟩ (some (.userExc 7))).2 = none := by
  have h1 := c2_amended ⟨none, false⟩ ⟨.pnone, true, false⟩ (some (.userExc 7)) rfl
  have h2 := c2_amended ⟨none, false⟩ ⟨.pstr "v", true, false⟩ (some (.userExc 7)) rfl
  exact ⟨by simpa using h1.1, by simpa using h2.2⟩

/-- The mutual-exclusion invariant is preserved by every step that is not
a TTL expiry (checked over the finite state and event spaces). -/
theorem mutexInv_step (s : LockSys) (e : LockEvent) (hs : mutexInv s)
    (he : e ≠ .eexpire) : mutexInv (lockStep s e) :=
  (by decide :
    ∀ (s : LockSys) (e : LockEvent), mutexInv s → e ≠ .eexpire →
      mutexInv (lockStep s e)) s e hs he

/-- The invariant holds after any expiry-free run from an invariant
state. -/
theorem mutexInv_run (evs : List LockEvent) (s : LockSys) (hs : mutexInv s)
    (hexp : ∀ e ∈ evs, e ≠ LockEvent.eexpire) :
    mutexInv (evs.foldl lockStep s) := by
  induction evs generalizing s with
  | nil => exact hs
  | cons e tl ih =>
    rw [List.foldl_cons]
    exact ih (lockStep s e) (mutexInv_step s e hs (hexp e (by simp)))
      (fun e' he' => hexp e' (by simp [he']))

/-- C3: in every interleaved execution of two acquirers of the same lock
name in which the key's TTL does not expire, at most one process is in the
`held` state at any instant, and from a state where the first process
holds the lock no single non-expiry step can put the second process into
`held` — the second acquirer's `acquire` cannot return while the first
holds. -/
theorem c3_lock_mutual_exclusion (evs : List LockEvent) (e : LockEvent)
    (hexp : ∀ x ∈ evs, x ≠ LockEvent.eexpire) (he : e ≠ LockEvent.eexpire) :
    ¬((lockRun evs).p1 = .held ∧ (lockRun evs).p2 = .held)
  ∧ ((lockRun evs).p1 = .held → (lockStep (lockRun evs) e).p2 ≠ .held) := by
  have hinv : mutexInv (lockRun evs) := mutexInv_run evs lockInit (by decide) hexp
  have key2 : ∀ (s : LockSys) (ev : LockEvent), mutexInv s → ev ≠ .eexpire →
      s.p1 = .held → (lockStep s ev).p2 ≠ .held := by decide
  exact ⟨hinv.2.2, fun h1 => key2 (lockRun evs) e hinv he h1⟩

/-- C3 (witness): after the first process polls and wins the `SETNX`, the
mutual-exclusion properties hold concretely against a `SETNX` attempt by
the second process. -/
theorem c3_lock_mutual_exclusion_witness :
    ¬((lockRun [.eget false, .esetnx false]).p1 = .held
        ∧ (lockRun [.eget false, .esetnx false]).p2 = .held)
  ∧ ((lockRun [.eget false, .esetnx false]).p1 = .held →
      (lockStep (lockRun [.eget false, .esetnx false]) (.esetnx true)).p2 ≠ .held) :=
  c3_lock_mutual_exclusion [.eget false, .esetnx false] (.esetnx true)
    (by decide) (by decide)

/-- C4 (counterexample): the synchronous and asynchronous variants are not
command-for-command identical: `release_lock` issues `DEL` in the sync
variant but `EXPIRE key -1` in the async one, and the scalar scoped-entry
read returns `{}` on a miss in the sync variant but `None` in the async
one. -/
theorem c4_counterexample :
    (releaseLockSync [] "x").2.2 ≠ (releaseLockAsync [] "x").2.2
  ∧ simpleGetSync ⟨none, false⟩ ≠ simpleGetAsync ⟨none, false⟩ := by
  decide

/-- C4 (amended): lock acquisition issues identical command sequences with
identical results in both variants; lock release issues `DEL` in the sync
variant and `EXPIRE key -1` in the async variant; the scalar scoped read
yields `{}` (sync) versus `None` (async) on a miss.  (The memoizer exists
only in the synchronous variant.) -/
theorem c4_amended (fuel : Nat) (st : KeyStore) (key : String) (ex : Int)
    (st2 : KeyStore) :
    acquireLockSync fuel st key ex = acquireLockAsync fuel st key ex
  ∧ (releaseLockSync st2 key).2.2 = [Cmd.del ("lock:" ++ key)]
  ∧ (releaseLockAsync st2 key).2.2 = [Cmd.expire ("lock:" ++ key) (-1)]
  ∧ simpleGetSync ⟨none, false⟩ = .pdict .nil
  ∧ simpleGetAsync ⟨none, false⟩ = .pnone := by
  refine ⟨?_, rfl, rfl, rfl, rfl⟩
  induction fuel with
  | zero => rfl
  | succ n ih => simp [acquireLockSync, acquireLockAsync, ih]

/-- C5 (counterexample): the synchronous `release_lock` issues a hard
`DEL`, not an expiry-based removal. -/
theorem c5_counterexample :
    (releaseLockSync [] "x").2.2 = [Cmd.del "lock:x"]
  ∧ [Cmd.del "lock:x"] ≠ [Cmd.expire "lock:x" (-1)] := by
  decide

/-- C5 (amended): the asynchronous `release_lock` removes `lock:<name>` by
setting a non-positive expiry, while the synchronous variant issues a hard
`DEL`; neither raises on a missing key, and release is idempotent in both
variants. -/
theorem c5_amended (st : KeyStore) (key : String) :
    (releaseLockSync st key).2.1 = none
  ∧ (releaseLockAsync st key).2.1 = none
  ∧ (releaseLockAsync st key).2.2 = [Cmd.expire ("lock:" ++ key) (-1)]
  ∧ (releaseLockSync st key).2.2 = [Cmd.del ("lock:" ++ key)]
  ∧ releaseLockSync (releaseLockSync st key).1 key = releaseLockSync st key
  ∧ releaseLockAsync (releaseLockAsync st key).1 key = releaseLockAsync st key := by
  refine ⟨rfl, rfl, rfl, rfl, ?_, ?_⟩ <;>
    simp [releaseLockSync, releaseLockAsync, List.filter_filter]

/-- C6 (counterexample): after loading the non-empty value `"a"`, the
caller overwrites it with the different value `"b"`, yet no flush happens
at scope exit — the entry is not re-marked dirty by an overwrite. -/
theorem c6_counterexample :
    simpleGetSync ⟨some (.pstr "a"), false⟩ = .pstr "a"
  ∧ (PyVal.pstr "b") ≠ (.pstr "a")
  ∧ withCacheFlushes ⟨some (.pstr "a"), false⟩ (.pstr "b") = false := by
  decide

/-- C6 (amended): with the default `is_update=True`, the value left by the
caller is flushed at scope exit exactly when the value loaded on entry was
falsy and the final value is truthy — never because it differs from the
loaded value. -/
theorem c6_amended (st : StoreC) (v1 : PyVal) :
    withCacheFlushes st v1 = (!(simpleGetSync st).truthy && v1.truthy) := by
  cases h : (simpleGetSync st).truthy <;>
    simp [withCacheFlushes, simpleEnterSync, h]

/-- C7 (counterexample): a pure wrapped function returning the falsy value
`0` is invoked on both of two successive identical calls (the cached `0`
is treated as a miss), not exactly once. -/
theorem c7_counterexample :
    (memoTwoCalls (.pint 0)).2.2 = 2
  ∧ ¬((memoTwoCalls (.pint 0)).2.2 = 1) := by
  decide

/-- `None` is falsy. -/
theorem truthy_pnone : PyVal.pnone.truthy = false := rfl

/-- `get_data` at an absent key yields `None`. -/
theorem getDataAt_none : getDataAt none = .pnone := rfl

/-- `get_data` at a present key yields the stored (JSON-decoded) value. -/
theorem getDataAt_some (v : PyVal) : getDataAt (some v) = v := rfl

/-- C7 (amended): provided the wrapped function's result is truthy, two
successive calls with identical arguments (second within the TTL, store
error-free) invoke it exactly once and return equal values; and whenever
the cache read yields a truthy value, the wrapper returns it without
invoking the function. -/
theorem c7_amended (fval : PyVal) (store : Option PyVal)
    (hf : fval.truthy = true) (hs : (getDataAt store).truthy = true) :
    (memoTwoCalls fval).2.2 = 1
  ∧ (memoTwoCalls fval).1 = (memoTwoCalls fval).2.1
  ∧ memoCall store fval = (getDataAt store, store, 0) := by
  refine ⟨?_, ?_, ?_⟩
  · simp [memoTwoCalls, memoCall, getDataAt_none, getDataAt_some, truthy_pnone, hf]
  · simp [memoTwoCalls, memoCall, getDataAt_none, getDataAt_some, truthy_pnone, hf]
  · simp [memoCall, hs]

/-- C7 (witness): the amended statement at a truthy function result and a
truthy cached value. -/
theorem c7_amended_witness :
    (memoTwoCalls (.pstr "x")).2.2 = 1
  ∧ (memoTwoCalls (.pstr "x")).1 = (memoTwoCalls (.pstr "x")).2.1
  ∧ memoCall (some (.pstr "y")) (.pstr "x")
      = (getDataAt (some (.pstr "y")), some (.pstr "y"), 0) :=
  c7_amended (.pstr "x") (some (.pstr "y")) (by decide) (by decide)

/-- C8: evaluating the embedded `AsyncSimpleCache.__enter__` and
`__exit__` at the failing input (synchronous use of the async-only
handle): the body `assert ValueError("只允许异步调用！")` asserts a truthy
exception instance, so no exception is raised and the synchronous use
silently succeeds — the intended misuse error is never delivered. -/
theorem c8_sync_use_of_async_handle_raises_nothing :
    asyncHandleSyncEnter = none ∧ asyncHandleSyncExit = none :=
  ⟨rfl, rfl⟩

/-- C9: a falsy payload is treated as absent throughout: loading a falsy
value leaves the `update` (dirty) flag at its configured value, a falsy
`data` is never flushed at scope exit (the store is untouched), and the
memoizer treats a falsy cached result as a miss, re-invoking the wrapped
function and returning its result on every such call. -/
theorem c9_falsy_treated_as_absent (v fval : PyVal) (st st2 : StoreC)
    (iu ie : Bool) (c : CacheEntry) (e : Option Exc)
    (hv : v.truthy = false) (h1 : simpleGetSync st = v) (h2 : c.data = v) :
    (simpleEnterSync st iu ie).update = iu
  ∧ (simpleExitSync st2 c e).1 = st2
  ∧ (memoCall (some v) fval).2.2 = 1
  ∧ (memoCall (some v) fval).1 = fval := by
  refine ⟨?_, ?_, ?_, ?_⟩
  · simp [simpleEnterSync, h1, hv]
  · simp [simpleExitSync, h2, hv]
  · simp [memoCall, getDataAt_some, hv]
  · simp [memoCall, getDataAt_some, hv]

/-- C9 (witness): the statement at the falsy payload `0`. -/
theorem c9_falsy_treated_as_absent_witness :
    (simpleEnterSync ⟨some (.pint 0), false⟩ true false).update = true
  ∧ (simpleExitSync ⟨some (.pstr "q"), false⟩ ⟨.pint 0, true, true⟩ none).1
      = ⟨some (.pstr "q"), false⟩
  ∧ (memoCall (some (.pint 0)) (.pstr "r")).2.2 = 1
  ∧ (memoCall (some (.pint 0)) (.pstr "r")).1 = .pstr "r" :=
  c9_falsy_treated_as_absent (.pint 0) (.pstr "r") ⟨some (.pint 0), false⟩
    ⟨some (.pstr "q"), false⟩ true false ⟨.pint 0, true, true⟩ none
    (by decide) (by decide) (by decide)

/-- Filtering by eligibility and then rendering equals `filterMap argSig`. -/
theorem filter_map_eq_filterMap_argSig (l : List PyVal) :
    (l.filter eligibleArg).map (fun v => stripDashes (pyStr v)) = l.filterMap argSig := by
  induction l with
  | nil => rfl
  | cons v tl ih =>
    by_cases h : eligibleArg v <;>
      simp [List.filter_cons, List.filterMap_cons, argSig, h, ih]

/-- Merge-sorting by `≤` on strings is invariant under permutation of the
input. -/
theorem mergeSort_le_congr {l1 l2 : List String} (h : l1.Perm l2) :
    l1.mergeSort (fun a b => a ≤ b) = l2.mergeSort (fun a b => a ≤ b) := by
  apply List.eq_of_perm_of_sorted (r := (· ≤ ·))
  · exact (List.mergeSort_perm l1 _).trans (h.trans (List.mergeSort_perm l2 _).symm)
  · exact List.sorted_mergeSort' l1
  · exact List.sorted_mergeSort' l2

/-- C10: the memoized cache key depends only on the multiset of
dash-stripped string forms of the eligible arguments (positional and
keyword values together): any two calls whose eligible renderings are a
permutation of each other derive the same key — covering reordered
positional arguments, reordered keyword arguments, and differences
confined to dropped arguments.  Moreover booleans, falsy scalars, `None`,
lists and dicts are all dropped, `-` characters inside strings are
stripped, and an integer's sign disappears with its dash. -/
theorem c10_cache_key_invariance (digest : String → String)
    (cachePer key : String) (args args2 : List PyVal)
    (kwargs kwargs2 : List (String × PyVal))
    (h : ((args ++ kwargs.map Prod.snd).filterMap argSig).Perm
         ((args2 ++ kwargs2.map Prod.snd).filterMap argSig)) :
    makeCacheKey digest cachePer key args kwargs
      = makeCacheKey digest cachePer key args2 kwargs2
  ∧ argSig (.pbool true) = none
  ∧ argSig (.pbool false) = none
  ∧ argSig (.pint 0) = none
  ∧ argSig (.pstr "") = none
  ∧ argSig .pnone = none
  ∧ argSig (.plist (.cons (.pint 1) .nil)) = none
  ∧ argSig (.pdict (.cons "a" (.pint 1) .nil)) = none
  ∧ argSig (.pstr "a-b") = argSig (.pstr "ab")
  ∧ argSig (.pint (-5)) = argSig (.pint 5) := by
  refine ⟨?_, by decide, by decide, by decide, by decide, by decide, by decide,
    by decide, by decide, by decide⟩
  simp only [makeCacheKey, canonArgString]
  rw [filter_map_eq_filterMap_argSig, filter_map_eq_filterMap_argSig,
    mergeSort_le_congr h]

/-- C10 (witness): two concrete calls differing in positional order, a
dash inside a string, keyword order, a dropped boolean, a dropped falsy
keyword value and a dropped list derive the same key. -/
theorem c10_cache_key_invariance_witness :
    makeCacheKey (fun s => s) "p" "k"
        [.pstr "a-b", .pint 5, .pbool true] [("x", .pint 1), ("y", .pint 0)]
      = makeCacheKey (fun s => s) "p" "k"
        [.pint 5, .pstr "ab", .plist .nil] [("y", .pint 0), ("x", .pint 1)]
  ∧ argSig (.pbool true) = none
  ∧ argSig (.pbool false) = none
  ∧ argSig (.pint 0) = none
  ∧ argSig (.pstr "") = none
  ∧ argSig .pnone = none
  ∧ argSig (.plist (.cons (.pint 1) .nil)) = none
  ∧ argSig (.pdict (.cons "a" (.pint 1) .nil)) = none
  ∧ argSig (.pstr "a-b") = argSig (.pstr "ab")
  ∧ argSig (.pint (-5)) = argSig (.pint 5) :=
  c10_cache_key_invariance (fun s => s) "p" "k"
    [.pstr "a-b", .pint 5, .pbool true] [.pint 5, .pstr "ab", .plist .nil]
    [("x", .pint 1), ("y", .pint 0)] [("y", .pint 0), ("x", .pint 1)]
    (by decide)

end PyRedis
